import Mathlib

/-!
Verification of the ratio / health-scoring pipeline of the repository
(`financialstatementfunctions_p.py`, `health.py`).

The embedding models pandas/numpy numeric cells exactly: a cell is either a
rational number, `+inf`, `-inf`, or `nan` (`PFloat`), with IEEE-style
propagation rules for the arithmetic the source uses (numpy float semantics
at exact rational precision; binary rounding error is not modelled, which is
irrelevant to the null/infinity propagation and threshold claims treated
here).  Python scalars obtained from `Series.get` are `Option PFloat`, where
`none` is Python `None` (absent column) and `some .nan` is a present NaN
value — the source distinguishes the two (`is None` checks and truthiness
versus `pd.isna`), so the embedding must as well.
-/

namespace FinHealth

/-- A pandas/numpy numeric cell: NaN, -inf, +inf, or an exact rational. -/
inductive PFloat where
  | nan : PFloat
  | minf : PFloat
  | pinf : PFloat
  | num : ℚ → PFloat
deriving DecidableEq, Repr

namespace PFloat

/-- NaN test (`pd.isna` on a present value). -/
def isNan : PFloat → Bool
  | nan => true
  | _ => false

/-- IEEE addition at exact precision. -/
def add : PFloat → PFloat → PFloat
  | nan, _ => nan
  | _, nan => nan
  | pinf, minf => nan
  | minf, pinf => nan
  | pinf, _ => pinf
  | _, pinf => pinf
  | minf, _ => minf
  | _, minf => minf
  | num a, num b => num (a + b)

/-- IEEE negation. -/
def neg : PFloat → PFloat
  | nan => nan
  | pinf => minf
  | minf => pinf
  | num a => num (-a)

/-- IEEE subtraction. -/
def sub (a b : PFloat) : PFloat := a.add b.neg

/-- IEEE multiplication at exact precision (`inf * 0 = nan`). -/
def mul : PFloat → PFloat → PFloat
  | nan, _ => nan
  | _, nan => nan
  | pinf, pinf => pinf
  | pinf, minf => minf
  | minf, pinf => minf
  | minf, minf => pinf
  | pinf, num b => if b = 0 then nan else if 0 < b then pinf else minf
  | num a, pinf => if a = 0 then nan else if 0 < a then pinf else minf
  | minf, num b => if b = 0 then nan else if 0 < b then minf else pinf
  | num a, minf => if a = 0 then nan else if 0 < a then minf else pinf
  | num a, num b => num (a * b)

/-- IEEE division at exact precision: numpy float semantics, so a zero
denominator with a nonzero numerator gives a signed infinity and `0/0 = nan`
(exactly what a pandas column division does). -/
def div : PFloat → PFloat → PFloat
  | nan, _ => nan
  | _, nan => nan
  | pinf, pinf => nan
  | pinf, minf => nan
  | minf, pinf => nan
  | minf, minf => nan
  | pinf, num b => if 0 ≤ b then pinf else minf
  | minf, num b => if 0 ≤ b then minf else pinf
  | num _, pinf => num 0
  | num _, minf => num 0
  | num a, num b =>
      if b = 0 then (if a = 0 then nan else if 0 < a then pinf else minf)
      else num (a / b)

/-- IEEE absolute value. -/
def abs : PFloat → PFloat
  | nan => nan
  | pinf => pinf
  | minf => pinf
  | num a => num |a|

/-- Python `<` on floats: any comparison against NaN is false. -/
def ltb : PFloat → PFloat → Bool
  | nan, _ => false
  | _, nan => false
  | minf, minf => false
  | minf, _ => true
  | _, minf => false
  | pinf, _ => false
  | num _, pinf => true
  | num a, num b => decide (a < b)

/-- Python `<=` on floats: any comparison against NaN is false. -/
def leb : PFloat → PFloat → Bool
  | nan, _ => false
  | _, nan => false
  | minf, _ => true
  | num _, minf => false
  | pinf, minf => false
  | _, pinf => true
  | pinf, num _ => false
  | num a, num b => decide (a ≤ b)

/-- Python `>` on floats. -/
def gtb (a b : PFloat) : Bool := ltb b a

/-- Python `>=` on floats. -/
def geb (a b : PFloat) : Bool := leb b a

/-- Python truthiness of a float: `0.0` is falsy, everything else (NaN and
the infinities included) is truthy. -/
def truthy : PFloat → Bool
  | num a => decide (a ≠ 0)
  | _ => true

end PFloat

/-- Python `round` (banker's rounding, halves to even) from an exact
rational to an integer.  `Rat.floor` is used rather than `⌊⌋` so the
definition evaluates by kernel reduction; they agree (`ratFloor_eq_floor`
below). -/
def pyRound (q : ℚ) : ℤ :=
  let f : ℤ := q.floor
  let r : ℚ := q - f
  if r < 1 / 2 then f
  else if 1 / 2 < r then f + 1
  else if f % 2 = 0 then f else f + 1

/-- `round(x, 2)` as applied to a numeric cell (numpy rounds halves to
even; NaN and infinities pass through). -/
def PFloat.round2 : PFloat → PFloat
  | PFloat.num q => PFloat.num ((pyRound (q * 100) : ℚ) / 100)
  | v => v

/-- `pd.isna` on a Python scalar: true for `None` and for NaN. -/
def pyIsNA : Option PFloat → Bool
  | none => true
  | some v => v.isNan

/-- `health._safe_div`: `None` if the denominator is Python `None` or equals
`0`; otherwise `a / b`, with a `TypeError` (from a `None` numerator) caught and
turned into `None`.  A NaN denominator is neither `None` nor `== 0`, so it
flows through the division and produces NaN. -/
def safe_div (a b : Option PFloat) : Option PFloat :=
  match b with
  | none => none
  | some bv =>
      if bv = PFloat.num 0 then none
      else
        match a with
        | none => none
        | some av => some (av.div bv)

/-- A calendar date (pandas `Timestamp` at day precision), ordered
lexicographically. -/
structure Date where
  y : ℤ
  m : ℤ
  d : ℤ
deriving DecidableEq, Repr

/-- Lexicographic `<=` on dates. -/
def Date.leb (a b : Date) : Bool :=
  if a.y < b.y then true
  else if b.y < a.y then false
  else if a.m < b.m then true
  else if b.m < a.m then false
  else decide (a.d ≤ b.d)

/-- Gregorian leap-year test, used by `pd.DateOffset` arithmetic. -/
def isLeapYear (y : ℤ) : Bool :=
  (decide (y % 4 = 0) && decide (y % 100 ≠ 0)) || decide (y % 400 = 0)

/-- `date - pd.DateOffset(years=2)`: same month and day two years earlier,
with Feb 29 clamped to Feb 28 when the target year is not a leap year. -/
def minusTwoYears (dt : Date) : Date :=
  if dt.m = 2 ∧ dt.d = 29 ∧ isLeapYear (dt.y - 2) = false then ⟨dt.y - 2, 2, 28⟩
  else ⟨dt.y - 2, dt.m, dt.d⟩

/-- A row of a transposed statement table: the cells, keyed by line-item
name.  A lookup of a column that the frame owns but the row list omits reads
as NaN; `DFrame.cols` records which columns the frame owns. -/
def cellv (r : List (String × PFloat)) (c : String) : PFloat :=
  (r.lookup c).getD PFloat.nan

/-- A pandas `DataFrame` as the project uses it after transposition:
`index = time`, `columns = line items`. -/
structure DFrame where
  cols : List String
  rows : List (Date × List (String × PFloat))
deriving DecidableEq, Repr

namespace DFrame

/-- `pd.DataFrame()`. -/
def emptyDF : DFrame := ⟨[], []⟩

/-- `df.empty`: true when either axis has length zero. -/
def isEmptyDF (df : DFrame) : Bool := df.rows.isEmpty || df.cols.isEmpty

/-- `df.sort_index()` (rows reordered by ascending date). -/
def sortIndex (df : DFrame) : DFrame :=
  ⟨df.cols, List.insertionSort (fun a b => Date.leb a.1 b.1 = true) df.rows⟩

/-- `Series.get(c)` on a row of `df`: Python `None` when the column is
absent, the (possibly NaN) cell value otherwise. -/
def rowGet (df : DFrame) (r : List (String × PFloat)) (c : String) : Option PFloat :=
  if c ∈ df.cols then some (cellv r c) else none

/-- `df.get(c)` on the frame itself: the column as a series, or Python
`None` when absent. -/
def getColumn (df : DFrame) (c : String) : Option (List PFloat) :=
  if c ∈ df.cols then some (df.rows.map (fun r => cellv r.2 c)) else none

end DFrame

/-- `_safe_select_columns(df, cols)`, i.e. `df.reindex(columns=cols)`: the
result owns exactly `cols`, in order; a requested column missing from `df`
is NaN in every row; columns of `df` not requested are dropped; the row
index is untouched. -/
def safeSelectColumns (df : DFrame) (cs : List String) : DFrame :=
  ⟨cs, df.rows.map (fun r =>
    (r.1, cs.map (fun c => (c, if c ∈ df.cols then cellv r.2 c else PFloat.nan))))⟩

/-- The last `n` elements of a list (`df.iloc[-n:]`). -/
def lastN (n : ℕ) (l : List α) : List α := l.drop (l.length - n)

/-- `health._last_n_years(df, n)`: unchanged when empty, else sort by index
and keep the last `n` rows. -/
def lastNYears (df : DFrame) (n : ℕ) : DFrame :=
  if df.isEmptyDF then df
  else ⟨df.cols, lastN n df.sortIndex.rows⟩

/-- `health._trend_pct(series)`: drop NaNs (`pd.to_numeric(...,
errors="coerce").dropna()` on an already-numeric series); `None` with fewer
than two remaining points or a zero first point; else
`(last - first) / abs(first)`.  The source's `pd.isna(first)` /
`pd.isna(last)` guards are unreachable after `dropna` and are elided. -/
def trendOfClean : List PFloat → Option PFloat
  | [] => none
  | [_] => none
  | f :: b :: rest =>
      if f = PFloat.num 0 then none
      else some ((((b :: rest).getLast (List.cons_ne_nil b rest)).sub f).div f.abs)

/-- `health._trend_pct(series)`, continued: apply `trendOfClean` to the
NaN-free subsequence. -/
def trendPct (s : List PFloat) : Option PFloat :=
  trendOfClean (s.filter (fun v => !v.isNan))

/-- Result record of `health.score_company_health`.  `metric_scores` and
`snapshot` are the dicts in insertion order. -/
structure HealthResult where
  score : ℤ
  rating : String
  metric_scores : List (String × ℤ)
  flags : List String
  snapshot : List (String × Option PFloat)
deriving DecidableEq, Repr

/-- The early-exit result when any statement is missing or empty. -/
def noDataResult : HealthResult :=
  ⟨0, "No Data", [], ["Missing statements from Yahoo Finance for this ticker."], []⟩

/-- Metric 1 (Liquidity) of `score_company_health`: score and flags
appended, as a function of the computed current ratio value. -/
def liquidityMetric (cr : Option PFloat) : ℤ × List String :=
  match cr with
  | none => (0, ["Could not compute Current Ratio (missing current assets/liabilities)."])
  | some v =>
      if v.geb (PFloat.num (3 / 2)) then (10, [])
      else if v.geb (PFloat.num 1) then (7, [])
      else if v.geb (PFloat.num (4 / 5)) then
        (4, ["Current Ratio is below 1.0 (tight short-term liquidity)."])
      else (1, ["Current Ratio is very low (high short-term liquidity risk)."])

/-- Metric 2 (Leverage) of `score_company_health`. -/
def leverageMetric (dte : Option PFloat) : ℤ × List String :=
  match dte with
  | none => (0, ["Could not compute leverage ratio (missing liabilities/equity)."])
  | some v =>
      if v.leb (PFloat.num 1) then (10, [])
      else if v.leb (PFloat.num 2) then (7, [])
      else if v.leb (PFloat.num 3) then
        (4, ["High leverage (liabilities materially exceed equity)."])
      else (1, ["Very high leverage (risk increases sharply in downturns)."])

/-- Metric 3 (Solvency) of `score_company_health`; the null case appends no
flag. -/
def solvencyMetric (dta : Option PFloat) : ℤ × List String :=
  match dta with
  | none => (0, [])
  | some v =>
      if v.leb (PFloat.num (1 / 2)) then (10, [])
      else if v.leb (PFloat.num (7 / 10)) then (7, [])
      else if v.leb (PFloat.num (17 / 20)) then
        (4, ["Liabilities are a large share of assets (solvency weaker)."])
      else (1, ["Liabilities dominate the asset base (solvency risk)."])

/-- Metric 4 (Profitability, operating margin) of `score_company_health`. -/
def profitabilityMetric (om : Option PFloat) : ℤ × List String :=
  match om with
  | none => (0, ["Could not compute operating margin (missing EBIT/revenue)."])
  | some v =>
      if v.geb (PFloat.num (1 / 5)) then (10, [])
      else if v.geb (PFloat.num (3 / 25)) then (7, [])
      else if v.geb (PFloat.num (3 / 50)) then
        (4, ["Thin operating margin (profits can vanish in a slowdown)."])
      else (1, ["Very low operating margin (business model looks fragile)."])

/-- Metric 5 (Unit economics, gross margin) of `score_company_health`; the
null case appends no flag. -/
def unitEconomicsMetric (gm : Option PFloat) : ℤ × List String :=
  match gm with
  | none => (0, [])
  | some v =>
      if v.geb (PFloat.num (2 / 5)) then (10, [])
      else if v.geb (PFloat.num (1 / 4)) then (7, [])
      else if v.geb (PFloat.num (3 / 20)) then
        (4, ["Low gross margin (limited pricing power or high input costs)."])
      else (1, ["Very low gross margin (watch competitive pressure)."])

/-- Metric 6 (Earnings quality, OCF / Net Income) of
`score_company_health`. -/
def earningsQualityMetric (cti : Option PFloat) : ℤ × List String :=
  match cti with
  | none => (0, ["Could not compute OCF/Net Income (missing OCF or Net Income)."])
  | some v =>
      if v.geb (PFloat.num (6 / 5)) then (10, [])
      else if v.geb (PFloat.num (9 / 10)) then (7, [])
      else if v.geb (PFloat.num (3 / 5)) then
        (4, ["Cash conversion is weak (profits not turning into cash)."])
      else (1, ["Very weak cash conversion (potential accrual risk)."])

/-- Metric 7 (Free cash flow) of `score_company_health`.  Mirrors the
source: `pd.isna(fcf)` catches `None` and NaN; otherwise the `-5%` bound is
`-0.05 * (revenue if revenue else 1)`, where Python truthiness sends `None`
and `0.0` (both falsy) to `1` but keeps NaN (truthy). -/
def fcfMetric (fcf revenue : Option PFloat) : ℤ × List String :=
  if pyIsNA fcf then
    (0, ["Free Cash Flow missing from Yahoo Finance for this ticker."])
  else
    match fcf with
    | none => (0, ["Free Cash Flow missing from Yahoo Finance for this ticker."])
    | some f =>
        if f.gtb (PFloat.num 0) then (10, [])
        else
          let rv : PFloat :=
            match revenue with
            | none => PFloat.num 1
            | some r => if r.truthy then r else PFloat.num 1
          if f.gtb ((PFloat.num (-1 / 20)).mul rv) then
            (6, ["FCF slightly negative (may be investment-heavy period)."])
          else (2, ["FCF materially negative (funding needs can rise)."])

/-- `t is not None and t > q` for a trend value `t`. -/
def optGtbQ (a : Option PFloat) (q : ℚ) : Bool :=
  match a with
  | some v => v.gtb (PFloat.num q)
  | none => false

/-- `t is not None and t < 0` for a trend value `t`. -/
def optLtbZero (a : Option PFloat) : Bool :=
  match a with
  | some v => v.ltb (PFloat.num 0)
  | none => false

/-- `a is not None and b is not None and a > b + 0.25`. -/
def optPairGtb (a b : Option PFloat) : Bool :=
  match a, b with
  | some r, some v => r.gtb (v.add (PFloat.num (1 / 4)))
  | _, _ => false

/-- Metric 8 (Trend sanity checks) of `score_company_health`: starts at 10,
applies each deduction whose guard holds, floors at 0. -/
def trendChecks (liabT revT niT recT invT : Option PFloat) : ℤ × List String :=
  let d1 := optGtbQ liabT (1 / 2)
  let d2 := optLtbZero revT
  let d3 := optLtbZero niT
  let d4 := optPairGtb recT revT
  let d5 := optPairGtb invT revT
  let tp : ℤ := 10 - (if d1 then 3 else 0) - (if d2 then 3 else 0)
      - (if d3 then 3 else 0) - (if d4 then 2 else 0) - (if d5 then 2 else 0)
  (max tp 0,
    (if d1 then ["Liabilities grew >50% over last ~3 reported years (leverage trending up)."] else [])
    ++ (if d2 then ["Revenue trend is negative over last ~3 reported years."] else [])
    ++ (if d3 then ["Net income trend is negative over last ~3 reported years."] else [])
    ++ (if d4 then ["Receivables rising much faster than revenue (collection risk)."] else [])
    ++ (if d5 then ["Inventory rising much faster than revenue (demand/stock risk)."] else []))

/-- The non-early-exit body of `score_company_health`, as a function of the
latest-row scalars and the five 3-year trend series.  The interleaved
snapshot updates, metric blocks, flag appends, total and rating of the
source are reproduced in order. -/
def healthMain (cur_assets cur_liab tot_assets tot_liab equity cash revenue ebit
    gross_profit net_income ocf fcf capex : Option PFloat)
    (liabS revS niS recS invS : List PFloat) : HealthResult :=
  let cr := safe_div cur_assets cur_liab
  let m1 := liquidityMetric cr
  let dte := safe_div tot_liab equity
  let m2 := leverageMetric dte
  let dta := safe_div tot_liab tot_assets
  let m3 := solvencyMetric dta
  let om := safe_div ebit revenue
  let m4 := profitabilityMetric om
  let gm := safe_div gross_profit revenue
  let m5 := unitEconomicsMetric gm
  let cti := safe_div ocf net_income
  let m6 := earningsQualityMetric cti
  let m7 := fcfMetric fcf revenue
  let m8 := trendChecks (trendPct liabS) (trendPct revS) (trendPct niS)
      (trendPct recS) (trendPct invS)
  let metric_scores : List (String × ℤ) :=
    [("Liquidity (Current Ratio)", m1.1),
     ("Leverage (Debt/Equity proxy)", m2.1),
     ("Solvency (Liab/Assets)", m3.1),
     ("Profitability (Operating Margin)", m4.1),
     ("Unit Economics (Gross Margin)", m5.1),
     ("Earnings Quality (OCF/Net Income)", m6.1),
     ("Free Cash Flow (FCF)", m7.1),
     ("Trend Checks (3y)", m8.1)]
  let flags := m1.2 ++ m2.2 ++ m3.2 ++ m4.2 ++ m5.2 ++ m6.2 ++ m7.2 ++ m8.2
  let snapshot : List (String × Option PFloat) :=
    [("Current Assets", cur_assets), ("Current Liabilities", cur_liab),
     ("Total Assets", tot_assets), ("Total Liabilities", tot_liab),
     ("Total Equity", equity), ("Cash & Equivalents", cash),
     ("Revenue", revenue), ("EBIT", ebit), ("Gross Profit", gross_profit),
     ("Net Income", net_income), ("Operating Cash Flow", ocf),
     ("Free Cash Flow", fcf), ("Capex", capex),
     ("Current Ratio", cr), ("Debt to Equity (Liab/Equity)", dte),
     ("Debt to Assets (Liab/Assets)", dta),
     ("Operating Margin (EBIT/Revenue)", om),
     ("Gross Margin (Gross Profit/Revenue)", gm),
     ("OCF / Net Income", cti)]
  let total : ℤ := (metric_scores.map Prod.snd).sum
  let score : ℤ :=
    if metric_scores.isEmpty then 0
    else pyRound (((total : ℚ) / (10 * (metric_scores.length : ℚ))) * 100)
  let rating : String :=
    if 80 ≤ score then "Strong"
    else if 60 ≤ score then "Okay"
    else if 40 ≤ score then "Weak"
    else "Risky"
  ⟨score, rating, metric_scores, flags, snapshot⟩

/-- `health.score_company_health`.  Inputs may be Python `None`; each
present frame is sorted by index.  Any missing or empty statement
short-circuits to the No-Data result.   The five `_trend_pct(df3.get(col))`
calls raise an `AttributeError` when the column is absent from the frame
(`df3.get` returns `None`, and `_trend_pct` then calls `.dropna()` on the
NaN scalar produced by `pd.to_numeric`); that is the only exception the
function can raise, and it is modelled as `Except.error`.  The final
catch-all branch over `getLast?` is unreachable: the frames were just
checked nonempty. -/
def optFrame : Option DFrame → DFrame
  | some df => df.sortIndex
  | none => DFrame.emptyDF

def scoreCompanyHealth (_ticker : String)
    (balance_sheet financials cashflow : Option DFrame) : Except String HealthResult :=
  let bs := optFrame balance_sheet
  let fs := optFrame financials
  let cf := optFrame cashflow
  if bs.isEmptyDF || fs.isEmptyDF || cf.isEmptyDF then .ok noDataResult
  else
    match bs.rows.getLast?, fs.rows.getLast?, cf.rows.getLast? with
    | some lbs, some lfs, some lcf =>
        let bs3 := lastNYears bs 3
        let fs3 := lastNYears fs 3
        match bs3.getColumn "Total Liabilities Net Minority Interest",
              fs3.getColumn "Total Revenue", fs3.getColumn "Net Income",
              bs3.getColumn "Accounts Receivable", bs3.getColumn "Inventory" with
        | some liabS, some revS, some niS, some recS, some invS =>
            .ok (healthMain
              (bs.rowGet lbs.2 "Current Assets")
              (bs.rowGet lbs.2 "Current Liabilities")
              (bs.rowGet lbs.2 "Total Assets")
              (bs.rowGet lbs.2 "Total Liabilities Net Minority Interest")
              (bs.rowGet lbs.2 "Total Equity Gross Minority Interest")
              (bs.rowGet lbs.2 "Cash And Cash Equivalents")
              (fs.rowGet lfs.2 "Total Revenue")
              (fs.rowGet lfs.2 "EBIT")
              (fs.rowGet lfs.2 "Gross Profit")
              (fs.rowGet lfs.2 "Net Income")
              (cf.rowGet lcf.2 "Operating Cash Flow")
              (cf.rowGet lcf.2 "Free Cash Flow")
              (cf.rowGet lcf.2 "Capital Expenditure")
              liabS revS niS recS invS)
        | _, _, _, _, _ =>
            .error "AttributeError: float object has no attribute dropna"
    | _, _, _ => .error "unreachable: statements checked nonempty"

/-! Ratio engine (`financialstatementfunctions_p.py`). -/

/-- Column list of `get_Assets` for current assets. -/
def current_Assets_columns : List String :=
  ["Cash And Cash Equivalents", "Other Short Term Investments",
   "Accounts Receivable", "Inventory", "Other Current Assets", "Current Assets"]

/-- Column list of `get_Assets` for non-current assets. -/
def non_current_Assets_columns : List String :=
  ["Net PPE", "Investments And Advances", "Other Non Current Assets",
   "Total Non Current Assets"]

/-- Column list of `get_Liabilities` for current liabilities. -/
def current_liabilities_columns : List String :=
  ["Other Current Liabilities", "Current Deferred Liabilities",
   "Current Debt And Capital Lease Obligation", "Payables And Accrued Expenses",
   "Current Liabilities"]

/-- Column list of `get_Liabilities` for non-current liabilities. -/
def non_current_liabilities_columns : List String :=
  ["Other Non Current Liabilities", "Long Term Debt And Capital Lease Obligation",
   "Total Non Current Liabilities Net Minority Interest"]

/-- Canonical income-statement column list of `get_Financial`. -/
def financialcolumns : List String :=
  ["Total Revenue", "Gross Profit", "Cost Of Revenue", "Operating Income",
   "Operating Expense", "Other Non Operating Income Expenses", "Tax Provision",
   "Pretax Income", "Net Income", "Diluted NI Availto Com Stockholders",
   "Net Interest Income", "Interest Expense", "Interest Income",
   "Normalized Income", "Net Income From Continuing And Discontinued Operation",
   "Total Expenses", "Diluted Average Shares", "Basic Average Shares",
   "Diluted EPS", "Basic EPS", "Other Income Expense",
   "Tax Effect Of Unusual Items", "Tax Rate For Calcs", "Normalized EBITDA",
   "Net Income From Continuing Operation Net Minority Interest",
   "Reconciled Depreciation", "Reconciled Cost Of Revenue", "EBITDA", "EBIT"]

/-- Canonical cash-flow column list of `get_CashFLow`. -/
def cashflowcolumns : List String :=
  ["Free Cash Flow", "Repurchase Of Capital Stock", "Repayment Of Debt",
   "Issuance Of Debt", "Capital Expenditure", "End Cash Position",
   "Financing Cash Flow", "Investing Cash Flow", "Operating Cash Flow"]

/-- Equity-name candidates of `get_Equity`. -/
def equityCandidates : List String :=
  ["Total Equity Gross Minority Interest", "Stockholders Equity",
   "Total Stockholder Equity", "Common Stock Equity", "Total Equity"]

/-- `_first_existing(df, candidates)`: the first candidate that is a column
of `df`, else `None`. -/
def firstExisting (df : DFrame) (cands : List String) : Option String :=
  cands.find? (fun c => decide (c ∈ df.cols))

/-- `get_Assets(balancesheet)`. -/
def get_Assets (balancesheet : DFrame) : DFrame × DFrame × DFrame :=
  (safeSelectColumns balancesheet current_Assets_columns,
   safeSelectColumns balancesheet non_current_Assets_columns,
   safeSelectColumns balancesheet ["Total Assets"])

/-- `get_Liabilities(balancesheet)`. -/
def get_Liabilities (balancesheet : DFrame) : DFrame × DFrame × DFrame :=
  (safeSelectColumns balancesheet current_liabilities_columns,
   safeSelectColumns balancesheet non_current_liabilities_columns,
   safeSelectColumns balancesheet ["Total Liabilities Net Minority Interest"])

/-- `get_Equity(balancesheet)`: the first matching candidate column renamed
to the canonical name, or an all-NaN frame with that single column when no
candidate exists. -/
def get_Equity (balancesheet : DFrame) : DFrame :=
  match firstExisting balancesheet equityCandidates with
  | none =>
      ⟨["Total Equity Gross Minority Interest"],
       balancesheet.rows.map (fun r => (r.1, []))⟩
  | some c =>
      ⟨["Total Equity Gross Minority Interest"],
       balancesheet.rows.map (fun r =>
         (r.1, [("Total Equity Gross Minority Interest", cellv r.2 c)]))⟩

/-- The raw per-ticker statements, as fetched and transposed (the data
provider is out of scope; it is a parameter of the batch functions). -/
structure RawData where
  balancesheet : DFrame
  financials : DFrame
  cashflow : DFrame

/-- `extract_balance_sheet(ticker)` applied to already-fetched raw data. -/
def extract_balance_sheet (raw : RawData) :
    DFrame × DFrame × DFrame × DFrame × DFrame × DFrame × DFrame :=
  let a := get_Assets raw.balancesheet
  let l := get_Liabilities raw.balancesheet
  (a.1, a.2.1, a.2.2, l.1, l.2.1, l.2.2, get_Equity raw.balancesheet)

/-- `get_TotalRevenue(ticker)`: unlike the safe-selected extractors, this is
a raw `financial['Total Revenue']` lookup, which raises a `KeyError` when
the (possibly empty) income statement lacks that column. -/
def get_TotalRevenue (financial : DFrame) : Except String DFrame :=
  if "Total Revenue" ∈ financial.cols then
    .ok ⟨["Total Revenue"],
         financial.rows.map (fun r =>
           (r.1, [("Total Revenue", cellv r.2 "Total Revenue")]))⟩
  else .error "KeyError: Total Revenue"

/-- `get_Financial(ticker)` applied to the fetched income statement. -/
def get_Financial (financial : DFrame) : DFrame :=
  safeSelectColumns financial financialcolumns

/-- `get_CashFLow(ticker)` applied to the fetched cash-flow statement. -/
def get_CashFLow (cashflow : DFrame) : DFrame :=
  safeSelectColumns cashflow cashflowcolumns

/-- One-column ratio table: element-wise division of column `ca` of `dfa`
by column `cb` of `dfb`.  Models the pandas series division for inputs
sharing the same index, which is how the pipeline calls it (both operands
derive from the same fetched statement or statements with equal period
indexes). -/
def seriesDivTable (name : String) (dfa : DFrame) (ca : String)
    (dfb : DFrame) (cb : String) : DFrame :=
  ⟨[name],
   List.zipWith (fun ra rb => (ra.1, [(name, (cellv ra.2 ca).div (cellv rb.2 cb))]))
     dfa.rows dfb.rows⟩

/-- `get_CurrentRatio(current_Assets, current_Liabilities)`. -/
def get_CurrentRatio (current_Assets current_Liabilities : DFrame) : DFrame :=
  seriesDivTable "Current Ratio" current_Assets "Current Assets"
    current_Liabilities "Current Liabilities"

/-- `get_DebttoEquityRatio(total_Liabilities, total_ShareHolderEquity)`. -/
def get_DebttoEquityRatio (total_Liabilities total_ShareHolderEquity : DFrame) : DFrame :=
  seriesDivTable "Debt_to_Equity_Ratio"
    total_Liabilities "Total Liabilities Net Minority Interest"
    total_ShareHolderEquity "Total Equity Gross Minority Interest"

/-- `get_EquityMultiplierRatio(total_Assets, total_ShareHolderEquity)`. -/
def get_EquityMultiplierRatio (total_Assets total_ShareHolderEquity : DFrame) : DFrame :=
  seriesDivTable "Equity_Multiplier_Ratio" total_Assets "Total Assets"
    total_ShareHolderEquity "Total Equity Gross Minority Interest"

/-- `get_DebttoAssetsRatio(total_Liabilities, total_Assets)`. -/
def get_DebttoAssetsRatio (total_Liabilities total_Assets : DFrame) : DFrame :=
  seriesDivTable "Debt_To_Assets_Ratio"
    total_Liabilities "Total Liabilities Net Minority Interest"
    total_Assets "Total Assets"

/-- `get_AssetTurnoverRatio(total_Revenue, total_Assets)`. -/
def get_AssetTurnoverRatio (total_Revenue total_Assets : DFrame) : DFrame :=
  seriesDivTable "Asset Turnover Ratio" total_Revenue "Total Revenue"
    total_Assets "Total Assets"

/-- `get_CashFlowtoNetIncomeRatio(cashflow, financial)`. -/
def get_CashFlowtoNetIncomeRatio (cashflow financial : DFrame) : DFrame :=
  seriesDivTable "Cash Flow to Income Ratio" cashflow "Operating Cash Flow"
    financial "Net Income"

/-- `get_OperatingCashFlowRatio(cashflow, current_Liabilities)`. -/
def get_OperatingCashFlowRatio (cashflow current_Liabilities : DFrame) : DFrame :=
  seriesDivTable "Operating Cash Flow Ratio" cashflow "Operating Cash Flow"
    current_Liabilities "Current Liabilities"

/-- A row of a per-company ratio comparison table: period, `Company` tag,
ratio value. -/
structure TRow where
  date : Date
  company : String
  value : PFloat
deriving DecidableEq, Repr

/-- `df['Company'] = [ticker] * len(df)` followed by reading off the single
ratio column: the rows of a one-column ratio table tagged with the ticker. -/
def tagCompany (t : String) (df : DFrame) (c : String) : List TRow :=
  df.rows.map (fun r => ⟨r.1, t, cellv r.2 c⟩)

/-- `get_RatiosofMultipleCompanies(listoftickers)`: per ticker, fetch, build
the seven ratio tables, tag each with the ticker and concatenate across
tickers in list order.  The `KeyError` of `get_TotalRevenue` propagates —
there is no try/except in the source — aborting the whole batch. -/
def get_RatiosofMultipleCompanies (provider : String → RawData) :
    List String →
    Except String (List TRow × List TRow × List TRow × List TRow ×
                   List TRow × List TRow × List TRow)
  | [] => .ok ([], [], [], [], [], [], [])
  | t :: ts => do
      let raw := provider t
      let e := extract_balance_sheet raw
      let ca := e.1
      let ta := e.2.2.1
      let cl := e.2.2.2.1
      let tl := e.2.2.2.2.2.1
      let eqdf := e.2.2.2.2.2.2
      let trdf ← get_TotalRevenue raw.financials
      let fin := get_Financial raw.financials
      let cfl := get_CashFLow raw.cashflow
      let (c1, c2, c3, c4, c5, c6, c7) ← get_RatiosofMultipleCompanies provider ts
      .ok (tagCompany t (get_CurrentRatio ca cl) "Current Ratio" ++ c1,
           tagCompany t (get_DebttoEquityRatio tl eqdf) "Debt_to_Equity_Ratio" ++ c2,
           tagCompany t (get_EquityMultiplierRatio ta eqdf) "Equity_Multiplier_Ratio" ++ c3,
           tagCompany t (get_DebttoAssetsRatio tl ta) "Debt_To_Assets_Ratio" ++ c4,
           tagCompany t (get_AssetTurnoverRatio trdf ta) "Asset Turnover Ratio" ++ c5,
           tagCompany t (get_CashFlowtoNetIncomeRatio cfl fin) "Cash Flow to Income Ratio" ++ c6,
           tagCompany t (get_OperatingCashFlowRatio cfl cl) "Operating Cash Flow Ratio" ++ c7)

/-! Trend and ranking engine. -/

/-- `series.pct_change()` with no fill: NaN at the first position, then
`v[i] / v[i-1] - 1`. -/
def pctChange : List PFloat → List PFloat
  | [] => []
  | x :: xs =>
      PFloat.nan ::
        List.zipWith (fun prev cur => (cur.div prev).sub (PFloat.num 1)) (x :: xs) xs

/-- `round(series.pct_change() * 100, 2)` — the year-over-year change
column (`get_MultipleProfitabilityRatios` and friends). -/
def yoyChangeSeries (s : List PFloat) : List PFloat :=
  (pctChange s).map (fun v => (v.mul (PFloat.num 100)).round2)

/-- Modelled from the claim's words, for comparison with `yoyChangeSeries`:
`YoYChange[i] = (value[i] - value[i-1]) / value[i-1] * 100`, null at `i = 0`
and whenever the prior value is null or zero. -/
def yoyChangeClaimed : List PFloat → List PFloat
  | [] => []
  | x :: xs =>
      PFloat.nan ::
        List.zipWith (fun prev cur =>
          if prev.isNan || prev = PFloat.num 0 then PFloat.nan
          else ((cur.sub prev).div prev).mul (PFloat.num 100)) (x :: xs) xs

/-- pandas column mean: skip NaNs; NaN when nothing remains. -/
def pmean (xs : List PFloat) : PFloat :=
  let t := xs.filter (fun v => !v.isNan)
  if t.isEmpty then PFloat.nan
  else (t.foldl PFloat.add (PFloat.num 0)).div (PFloat.num (t.length : ℚ))

/-- Sort-key class for `sort_values(ascending=False)`: +inf first, then the
numbers, then -inf, NaN always last (`na_position='last'`). -/
def rankClass : PFloat → ℤ
  | PFloat.pinf => 0
  | PFloat.num _ => 1
  | PFloat.minf => 2
  | PFloat.nan => 3

/-- Numeric sort key within `rankClass` 1 (negated, so ascending key order
is descending value order). -/
def rankVal : PFloat → ℚ
  | PFloat.num q => -q
  | _ => 0

/-- "`a` comes no later than `b`" in a descending, NaN-last sort. -/
def rankLe (a b : PFloat) : Prop :=
  rankClass a < rankClass b ∨ (rankClass a = rankClass b ∧ rankVal a ≤ rankVal b)

instance : DecidableRel rankLe := fun a b =>
  inferInstanceAs (Decidable (rankClass a < rankClass b ∨
    (rankClass a = rankClass b ∧ rankVal a ≤ rankVal b)))

/-- `df.sort_values(by=value, ascending=False)` on a `(Company, value)`
table (NaN keys last). -/
def sortValuesDesc (l : List (String × PFloat)) : List (String × PFloat) :=
  List.insertionSort (fun x y => rankLe x.2 y.2) l

/-- `df.sort_index()` on a tagged ratio table. -/
def sortTRows (rows : List TRow) : List TRow :=
  List.insertionSort (fun a b => Date.leb a.date b.date = true) rows

/-- `df.groupby('Company')` keys: the distinct companies in ascending
order. -/
def companiesOf (rows : List TRow) : List String :=
  (List.insertionSort (fun a b : String => a ≤ b) (rows.map (fun r => r.company))).dedup

/-- `df.groupby('Company')[col].mean().reset_index()`: one `(company, mean)`
row per distinct company, companies ascending. -/
def groupMeans (rows : List TRow) : List (String × PFloat) :=
  (companiesOf rows).map (fun c =>
    (c, pmean ((rows.filter (fun r => r.company = c)).map (fun r => r.value))))

/-- `df.index.max()` over a tagged table (callers establish nonemptiness). -/
def maxDate (rows : List TRow) : Date :=
  match rows with
  | [] => ⟨0, 1, 1⟩
  | r :: rs => rs.foldl (fun acc x => if Date.leb acc x.date then x.date else acc) r.date

/-- `df[df.index >= (df.index.max() - pd.DateOffset(years=2))]`: the window
`get_RankingTableProfitability` restricts to. -/
def windowRows (rows : List TRow) : List TRow :=
  rows.filter (fun r => Date.leb (minusTwoYears (maxDate rows)) r.date)

/-- `get_RankingTableProfitability(profitability)` (the gross-margin half;
the operating half is structurally identical): sort by index, keep the
date-offset window, group by company, mean, sort descending. -/
def get_RankingTableProfitability (profitability : List TRow) : List (String × PFloat) :=
  sortValuesDesc (groupMeans (windowRows (sortTRows profitability)))

/-- `max(period.year)` over a tagged table. -/
def maxYear (rows : List TRow) : ℤ :=
  match rows with
  | [] => 0
  | r :: rs => rs.foldl (fun acc x => max acc x.date.y) r.date.y

/-- Modelled from the claim's words, for comparison with
`get_RankingTableProfitability`: restrict to rows with
`period.year >= max(period.year) - 2`, group by company, mean, sort
descending. -/
def rankingByCalendarYearClaimed (rows : List TRow) : List (String × PFloat) :=
  sortValuesDesc (groupMeans
    ((sortTRows rows).filter (fun r => decide (maxYear rows - 2 ≤ r.date.y))))

/-- Modelled from the claim's words, for comparison with `fcfMetric`:
missing FCF scores 0; `FCF > 0` scores 10; otherwise
`FCF > -5% * Revenue` scores 6 and any lower FCF scores 2, where a missing
Revenue is treated as `1` when computing the `-5%` bound. -/
def fcfScoreClaimed (fcf revenue : Option PFloat) : ℤ :=
  if pyIsNA fcf then 0
  else
    match fcf with
    | none => 0
    | some f =>
        if f.gtb (PFloat.num 0) then 10
        else
          let rv : PFloat := if pyIsNA revenue then PFloat.num 1
                             else revenue.getD (PFloat.num 1)
          if f.gtb ((PFloat.num (-1 / 20)).mul rv) then 6 else 2

/-! Concrete data used by the witnesses and counterexamples below. -/

/-- A one-row balance sheet providing every field the pipeline reads. -/
def wBsA : DFrame :=
  ⟨["Current Assets", "Current Liabilities", "Total Assets",
    "Total Liabilities Net Minority Interest",
    "Total Equity Gross Minority Interest", "Accounts Receivable", "Inventory"],
   [(⟨2023, 12, 31⟩,
     [("Current Assets", PFloat.num 150), ("Current Liabilities", PFloat.num 100),
      ("Total Assets", PFloat.num 500),
      ("Total Liabilities Net Minority Interest", PFloat.num 200),
      ("Total Equity Gross Minority Interest", PFloat.num 300),
      ("Accounts Receivable", PFloat.num 40), ("Inventory", PFloat.num 30)])]⟩

/-- A one-row income statement for the same ticker. -/
def wFinA : DFrame :=
  ⟨["Total Revenue", "Net Income"],
   [(⟨2023, 12, 31⟩,
     [("Total Revenue", PFloat.num 1000), ("Net Income", PFloat.num 80)])]⟩

/-- A one-row cash-flow statement for the same ticker. -/
def wCfA : DFrame :=
  ⟨["Operating Cash Flow", "Free Cash Flow"],
   [(⟨2023, 12, 31⟩,
     [("Operating Cash Flow", PFloat.num 90), ("Free Cash Flow", PFloat.num 50)])]⟩

/-- A provider with full data for every ticker except `"B"`, whose income
statement comes back entirely empty (no columns, no rows) — the shape
yfinance returns when a ticker has no income-statement data. -/
def wProviderC4 : String → RawData := fun t =>
  if t = "B" then ⟨wBsA, DFrame.emptyDF, wCfA⟩ else ⟨wBsA, wFinA, wCfA⟩

/-- One-column current-assets frame with a single period. -/
def wCA0 : DFrame :=
  ⟨["Current Assets"], [(⟨2023, 12, 31⟩, [("Current Assets", PFloat.num 150)])]⟩

/-- One-column current-liabilities frame whose single value is exactly 0. -/
def wCL0 : DFrame :=
  ⟨["Current Liabilities"],
   [(⟨2023, 12, 31⟩, [("Current Liabilities", PFloat.num 0)])]⟩

/-- An empty balance sheet (columns known, zero rows). -/
def wBsEmpty : DFrame := ⟨["Current Assets"], []⟩

/-- Tagged table where the code's date-offset window and the claim's
calendar-year window disagree: the max date is 2023-12-31, so the code
keeps dates ≥ 2021-12-31 (dropping A's 2021-06-30 row) while the claim
keeps every year ≥ 2021. -/
def wRowsC6 : List TRow :=
  [⟨⟨2021, 6, 30⟩, "A", PFloat.num 100⟩,
   ⟨⟨2023, 12, 31⟩, "A", PFloat.num 1⟩,
   ⟨⟨2022, 12, 31⟩, "B", PFloat.num 5⟩]

/-- Tagged table realizing the claim's example: 2-year-window means
`{A: 5, B: -2, C: 10}`. -/
def wRowsC6ex : List TRow :=
  [⟨⟨2023, 12, 31⟩, "A", PFloat.num 5⟩,
   ⟨⟨2023, 12, 31⟩, "B", PFloat.num (-2)⟩,
   ⟨⟨2023, 12, 31⟩, "C", PFloat.num 10⟩]

/-- A raw frame and canonical list for the normalization witness: column
`"A"` is kept, `"Dropped"` is dropped, `"B"` is requested but absent. -/
def wRawC3 : DFrame :=
  ⟨["A", "Dropped"],
   [(⟨2022, 12, 31⟩, [("A", PFloat.num 3), ("Dropped", PFloat.num 9)]),
    (⟨2023, 12, 31⟩, [("A", PFloat.num 4), ("Dropped", PFloat.num 8)])]⟩

/-- A statement passed to `score_company_health` is Python `None`, or empty
(one of its axes has length zero). -/
def pandasMissingOrEmpty : Option DFrame → Prop
  | none => True
  | some df => df.rows = [] ∨ df.cols = []

/-! Helper lemmas. -/

theorem ratFloor_eq_floor (q : ℚ) : (Rat.floor q : ℤ) = ⌊q⌋ := by
  rw [Rat.floor_def', Rat.floor_def]

theorem pyRound_eq (q : ℚ) :
    pyRound q = if q - ⌊q⌋ < 1 / 2 then ⌊q⌋
      else if 1 / 2 < q - ⌊q⌋ then ⌊q⌋ + 1
      else if ⌊q⌋ % 2 = 0 then ⌊q⌋ else ⌊q⌋ + 1 := by
  unfold pyRound
  rw [ratFloor_eq_floor]

theorem num_div_num (a b : ℚ) : (PFloat.num a).div (PFloat.num b) =
    if b = 0 then (if a = 0 then PFloat.nan else if 0 < a then PFloat.pinf else PFloat.minf)
    else PFloat.num (a / b) := rfl

theorem num_sub_num (a b : ℚ) : (PFloat.num a).sub (PFloat.num b) = PFloat.num (a - b) := by
  simp [PFloat.sub, PFloat.neg, PFloat.add, sub_eq_add_neg]

theorem num_mul_num (a b : ℚ) : (PFloat.num a).mul (PFloat.num b) = PFloat.num (a * b) := rfl

theorem num_add_num (a b : ℚ) : (PFloat.num a).add (PFloat.num b) = PFloat.num (a + b) := rfl

theorem pinf_sub_num (b : ℚ) : PFloat.pinf.sub (PFloat.num b) = PFloat.pinf := rfl

theorem minf_sub_num (b : ℚ) : PFloat.minf.sub (PFloat.num b) = PFloat.minf := rfl

theorem pinf_mul_num (b : ℚ) : PFloat.pinf.mul (PFloat.num b) =
    if b = 0 then PFloat.nan else if 0 < b then PFloat.pinf else PFloat.minf := rfl

theorem minf_mul_num (b : ℚ) : PFloat.minf.mul (PFloat.num b) =
    if b = 0 then PFloat.nan else if 0 < b then PFloat.minf else PFloat.pinf := rfl

theorem num_mul_nan (a : ℚ) : (PFloat.num a).mul PFloat.nan = PFloat.nan := rfl

theorem nan_mul (v : PFloat) : PFloat.nan.mul v = PFloat.nan := by cases v <;> rfl

theorem round2_nan : PFloat.nan.round2 = PFloat.nan := rfl

theorem round2_pinf : PFloat.pinf.round2 = PFloat.pinf := rfl

theorem round2_minf : PFloat.minf.round2 = PFloat.minf := rfl

theorem round2_num (q : ℚ) :
    (PFloat.num q).round2 = PFloat.num ((pyRound (q * 100) : ℚ) / 100) := rfl

theorem ltb_num_num (a b : ℚ) : (PFloat.num a).ltb (PFloat.num b) = decide (a < b) := rfl

theorem leb_num_num (a b : ℚ) : (PFloat.num a).leb (PFloat.num b) = decide (a ≤ b) := rfl

theorem ltb_nan_left (v : PFloat) : PFloat.nan.ltb v = false := by cases v <;> rfl

theorem ltb_nan_right (v : PFloat) : v.ltb PFloat.nan = false := by cases v <;> rfl

theorem leb_nan_left (v : PFloat) : PFloat.nan.leb v = false := by cases v <;> rfl

theorem leb_nan_right (v : PFloat) : v.leb PFloat.nan = false := by cases v <;> rfl

theorem nan_div_any (v : PFloat) : PFloat.nan.div v = PFloat.nan := by cases v <;> rfl

theorem lookup_map_pair (f : String → PFloat) (c : String) :
    ∀ cs : List String,
      (cs.map (fun x => (x, f x))).lookup c = if c ∈ cs then some (f c) else none
  | [] => by simp
  | a :: as => by
      by_cases h : c = a
      · subst h; simp [List.lookup]
      · have hb : (c == a) = false := beq_eq_false_iff_ne.mpr h
        simp [List.lookup, hb, lookup_map_pair f c as, h]

theorem cellv_map_pair (f : String → PFloat) (c : String) (cs : List String)
    (hc : c ∈ cs) : cellv (cs.map (fun x => (x, f x))) c = f c := by
  simp [cellv, lookup_map_pair f c cs, hc]

theorem cellv_single (n : String) (v : PFloat) : cellv [(n, v)] n = v := by
  simp [cellv, List.lookup]

theorem sortIndex_isEmpty (df : DFrame) (h : df.rows = [] ∨ df.cols = []) :
    df.sortIndex.isEmptyDF = true := by
  rcases h with h | h <;> simp [DFrame.sortIndex, DFrame.isEmptyDF, h]

theorem trendPct_spec (u : List PFloat) :
    (trendPct u = none ↔
      (u.filter (fun v => !v.isNan)).length < 2 ∨
      (u.filter (fun v => !v.isNan)).head? = some (PFloat.num 0)) ∧
    ∀ f l, (u.filter (fun v => !v.isNan)).head? = some f →
      (u.filter (fun v => !v.isNan)).getLast? = some l →
      f ≠ PFloat.num 0 → 2 ≤ (u.filter (fun v => !v.isNan)).length →
      trendPct u = some ((l.sub f).div f.abs) := by
  unfold trendPct
  generalize (u.filter (fun v => !v.isNan)) = t
  match t with
  | [] => exact ⟨by simp [trendOfClean], fun f l hh => by simp at hh⟩
  | [a] =>
      refine ⟨by simp [trendOfClean], fun f l _ _ _ hlen => ?_⟩
      simp at hlen
  | f :: b :: rest =>
      constructor
      · by_cases hf : f = PFloat.num 0
        · subst hf; simp [trendOfClean]
        · simp only [trendOfClean, if_neg hf]
          constructor
          · intro hcon; exact absurd hcon (by simp)
          · rintro (hlen | hhd)
            · simp at hlen; omega
            · simp at hhd; exact absurd hhd hf
      · intro g l₀ hh hl hne _
        simp only [List.head?_cons, Option.some.injEq] at hh
        subst hh
        have hgl : (f :: b :: rest).getLast? =
            some ((b :: rest).getLast (List.cons_ne_nil b rest)) := by
          rw [List.getLast?_cons_cons]
          exact List.getLast?_eq_getLast _ _
        rw [hgl, Option.some.injEq] at hl
        simp only [trendOfClean, if_neg hne, hl]

/-! Claim theorems. -/

/-- C10: in the 3-period trend computation used by the Trend Checks metric,
null (NaN) values anywhere in the most-recent-3 window are discarded before
the trend is taken; the trend is null exactly when fewer than 2 non-null
values remain or the earliest non-null value is 0, and otherwise equals
`(last - first) / abs(first)` over the non-null values of the window. -/
theorem claim_C10_trend (s : List PFloat) :
    (trendPct (lastN 3 s) = none ↔
      ((lastN 3 s).filter (fun v => !v.isNan)).length < 2 ∨
      ((lastN 3 s).filter (fun v => !v.isNan)).head? = some (PFloat.num 0)) ∧
    ∀ f l, ((lastN 3 s).filter (fun v => !v.isNan)).head? = some f →
      ((lastN 3 s).filter (fun v => !v.isNan)).getLast? = some l →
      f ≠ PFloat.num 0 → 2 ≤ ((lastN 3 s).filter (fun v => !v.isNan)).length →
      trendPct (lastN 3 s) = some ((l.sub f).div f.abs) :=
  trendPct_spec (lastN 3 s)

/-- C10 witness: the window of `[7, NaN, 2, 4]` is `[NaN, 2, 4]`, its
non-null values are `[2, 4]`, and the trend is `(4 - 2) / |2| = 1`. -/
theorem claim_C10_trend_witness :
    ((lastN 3 [PFloat.num 7, PFloat.nan, PFloat.num 2, PFloat.num 4]).filter
        (fun v => !v.isNan)).head? = some (PFloat.num 2) ∧
    ((lastN 3 [PFloat.num 7, PFloat.nan, PFloat.num 2, PFloat.num 4]).filter
        (fun v => !v.isNan)).getLast? = some (PFloat.num 4) ∧
    PFloat.num 2 ≠ PFloat.num 0 ∧
    trendPct (lastN 3 [PFloat.num 7, PFloat.nan, PFloat.num 2, PFloat.num 4]) =
      some (((PFloat.num 4).sub (PFloat.num 2)).div (PFloat.num 2).abs) :=
  ⟨by decide, by decide, by decide,
   (claim_C10_trend [PFloat.num 7, PFloat.nan, PFloat.num 2, PFloat.num 4]).2
     (PFloat.num 2) (PFloat.num 4) (by decide) (by decide) (by decide) (by decide)⟩

/-- C3: normalization (`_safe_select_columns`, used by `get_Financial` and
the other extractors) produces exactly the canonical columns in order,
fills requested-but-absent fields with null in every row, drops fields not
in the canonical list, and preserves the row (time-index) order. -/
theorem claim_C3_normalize (df : DFrame) (cs : List String) :
    (safeSelectColumns df cs).cols = cs ∧
    (safeSelectColumns df cs).rows.map Prod.fst = df.rows.map Prod.fst ∧
    ∀ (i : ℕ) (r0 r1 : Date × List (String × PFloat)),
      df.rows.get? i = some r0 →
      (safeSelectColumns df cs).rows.get? i = some r1 →
      r1.1 = r0.1 ∧
      ∀ c ∈ cs, cellv r1.2 c = if c ∈ df.cols then cellv r0.2 c else PFloat.nan := by
  refine ⟨rfl, ?_, ?_⟩
  · simp [safeSelectColumns]
  · intro i r0 r1 h0 h1
    simp only [safeSelectColumns, List.get?_map, h0, Option.map_some'] at h1
    rw [Option.some.injEq] at h1
    subst h1
    refine ⟨rfl, ?_⟩
    intro c hc
    exact cellv_map_pair (fun x => if x ∈ df.cols then cellv r0.2 x else PFloat.nan) c cs hc

/-- C3 witness at concrete data: `"A"` kept with its value, `"B"` requested
but absent hence NaN, `"Dropped"` gone, dates untouched. -/
theorem claim_C3_normalize_witness :
    wRawC3.rows.get? 0 =
      some (⟨2022, 12, 31⟩, [("A", PFloat.num 3), ("Dropped", PFloat.num 9)]) ∧
    (safeSelectColumns wRawC3 ["A", "B"]).rows.get? 0 =
      some (⟨2022, 12, 31⟩, [("A", PFloat.num 3), ("B", PFloat.nan)]) ∧
    "B" ∈ ["A", "B"] ∧
    cellv [("A", PFloat.num 3), ("B", PFloat.nan)] "B" =
      (if "B" ∈ wRawC3.cols
       then cellv [("A", PFloat.num 3), ("Dropped", PFloat.num 9)] "B"
       else PFloat.nan) :=
  ⟨by decide, by decide, by decide,
   ((claim_C3_normalize wRawC3 ["A", "B"]).2.2 0
      (⟨2022, 12, 31⟩, [("A", PFloat.num 3), ("Dropped", PFloat.num 9)])
      (⟨2022, 12, 31⟩, [("A", PFloat.num 3), ("B", PFloat.nan)])
      (by decide) (by decide)).2 "B" (by decide)⟩

/-- C2: if any of the three statements is missing or empty, the health
scorer returns exactly the No-Data result — score 0, rating `"No Data"`,
empty metric scores, a single missing-statements flag, empty snapshot —
regardless of the other two statements. -/
theorem claim_C2_early_exit (t : String) (bs fs cf : Option DFrame)
    (h : pandasMissingOrEmpty bs ∨ pandasMissingOrEmpty fs ∨ pandasMissingOrEmpty cf) :
    scoreCompanyHealth t bs fs cf =
      .ok ⟨0, "No Data", [], ["Missing statements from Yahoo Finance for this ticker."], []⟩ := by
  have key : ∀ o : Option DFrame, pandasMissingOrEmpty o →
      (optFrame o).isEmptyDF = true := by
    intro o ho
    match o with
    | none => rfl
    | some df => exact sortIndex_isEmpty df ho
  unfold scoreCompanyHealth
  rcases h with h | h | h <;>
    simp [key _ h, noDataResult]

/-- C2 witness: an empty balance sheet beside fully populated income and
cash-flow statements yields the exact No-Data record. -/
theorem claim_C2_early_exit_witness :
    pandasMissingOrEmpty (some wBsEmpty) ∧
    scoreCompanyHealth "X" (some wBsEmpty) (some wFinA) (some wCfA) =
      .ok ⟨0, "No Data", [], ["Missing statements from Yahoo Finance for this ticker."], []⟩ :=
  ⟨Or.inl rfl, claim_C2_early_exit "X" _ _ _ (Or.inl (Or.inl rfl))⟩

/-- C1 counterexample: with Current Assets `150` and Current Liabilities
exactly `0` for the single period, `get_CurrentRatio` produces `+inf` for
that period (numpy division semantics), not null — refuting "if the
denominator is null or zero ... the ratio for that period is null ... never
returns positive or negative infinity" for the pandas-division ratios. -/
theorem claim_C1_counterexample :
    (wCL0.rows.map (fun r => cellv r.2 "Current Liabilities") = [PFloat.num 0]) ∧
    ((get_CurrentRatio wCA0 wCL0).rows.map (fun r => cellv r.2 "Current Ratio") =
      [PFloat.pinf]) ∧
    PFloat.pinf ≠ PFloat.nan := by decide

/-- C1 amended: a null (`None`) or exactly-zero denominator, and a `None`
numerator, give null in `_safe_div`; in the pandas series-division ratios a
NaN numerator or denominator gives NaN, while an exactly-zero denominator
gives NaN only for a zero numerator and a signed infinity for a nonzero
finite numerator; the computation is total (never raises). -/
theorem claim_C1_amended :
    (∀ a, safe_div a none = none) ∧
    (∀ a, safe_div a (some (PFloat.num 0)) = none) ∧
    (∀ b, safe_div none b = none) ∧
    (∀ v, PFloat.nan.div v = PFloat.nan ∧ v.div PFloat.nan = PFloat.nan) ∧
    (∀ q : ℚ, (PFloat.num q).div (PFloat.num 0) =
      (if q = 0 then PFloat.nan else if 0 < q then PFloat.pinf else PFloat.minf)) ∧
    (∀ (dfa dfb : DFrame) (i : ℕ) (ra rb : Date × List (String × PFloat)),
      dfa.rows.get? i = some ra → dfb.rows.get? i = some rb →
      ∃ rr, (get_CurrentRatio dfa dfb).rows.get? i = some rr ∧ rr.1 = ra.1 ∧
        cellv rr.2 "Current Ratio" =
          (cellv ra.2 "Current Assets").div (cellv rb.2 "Current Liabilities") ∧
        ((cellv rb.2 "Current Liabilities").isNan = true →
          cellv rr.2 "Current Ratio" = PFloat.nan) ∧
        ((cellv ra.2 "Current Assets").isNan = true →
          cellv rr.2 "Current Ratio" = PFloat.nan)) := by
  refine ⟨fun a => rfl, ?_, ?_, ?_, ?_, ?_⟩
  · intro a; simp [safe_div]
  · intro b
    rcases b with _ | bv
    · rfl
    · simp only [safe_div]
      split <;> rfl
  · intro v; cases v <;> exact ⟨rfl, rfl⟩
  · intro q; simp [PFloat.div]
  · intro dfa dfb i ra rb h0 h1
    refine ⟨(ra.1, [("Current Ratio",
      (cellv ra.2 "Current Assets").div (cellv rb.2 "Current Liabilities"))]),
      ?_, rfl, ?_, ?_, ?_⟩
    · simp only [get_CurrentRatio, seriesDivTable, List.get?_zipWith', h0, h1,
        Option.map_some', Option.bind_some]
      rfl
    · exact cellv_single _ _
    · intro hnan
      have hy : cellv rb.2 "Current Liabilities" = PFloat.nan := by
        cases hv : cellv rb.2 "Current Liabilities" <;> simp_all [PFloat.isNan]
      simp only [cellv_single, hy]
      cases cellv ra.2 "Current Assets" <;> rfl
    · intro hnan
      have hx : cellv ra.2 "Current Assets" = PFloat.nan := by
        cases hv : cellv ra.2 "Current Assets" <;> simp_all [PFloat.isNan]
      simp only [cellv_single, hx]
      cases cellv rb.2 "Current Liabilities" <;> rfl

/-- C1 witness: applying the per-period characterization at one-row frames
with Current Assets `150` and Current Liabilities `100` (value `3/2`). -/
theorem claim_C1_amended_witness :
    wCA0.rows.get? 0 = some (⟨2023, 12, 31⟩, [("Current Assets", PFloat.num 150)]) ∧
    (⟨["Current Liabilities"],
      [(⟨2023, 12, 31⟩, [("Current Liabilities", PFloat.num 100)])]⟩ : DFrame).rows.get? 0 =
      some (⟨2023, 12, 31⟩, [("Current Liabilities", PFloat.num 100)]) ∧
    ∃ rr, (get_CurrentRatio wCA0
      ⟨["Current Liabilities"],
       [(⟨2023, 12, 31⟩, [("Current Liabilities", PFloat.num 100)])]⟩).rows.get? 0 =
        some rr ∧
      rr.1 = (⟨2023, 12, 31⟩ : Date) ∧
      cellv rr.2 "Current Ratio" =
        (cellv [("Current Assets", PFloat.num 150)] "Current Assets").div
          (cellv [("Current Liabilities", PFloat.num 100)] "Current Liabilities") ∧
      ((cellv [("Current Liabilities", PFloat.num 100)] "Current Liabilities").isNan = true →
        cellv rr.2 "Current Ratio" = PFloat.nan) ∧
      ((cellv [("Current Assets", PFloat.num 150)] "Current Assets").isNan = true →
        cellv rr.2 "Current Ratio" = PFloat.nan) :=
  ⟨by decide, by decide,
   claim_C1_amended.2.2.2.2.2 wCA0
     ⟨["Current Liabilities"], [(⟨2023, 12, 31⟩, [("Current Liabilities", PFloat.num 100)])]⟩
     0 (⟨2023, 12, 31⟩, [("Current Assets", PFloat.num 150)])
     (⟨2023, 12, 31⟩, [("Current Liabilities", PFloat.num 100)])
     (by decide) (by decide)⟩

theorem yoy_get (s : List PFloat) (i : ℕ) (x y : PFloat)
    (hx : s.get? i = some x) (hy : s.get? (i + 1) = some y) :
    (yoyChangeSeries s).get? (i + 1) =
      some ((((y.div x).sub (PFloat.num 1)).mul (PFloat.num 100)).round2) := by
  cases s with
  | nil => simp at hx
  | cons a as =>
      have hy' : as.get? i = some y := hy
      simp only [yoyChangeSeries, pctChange, List.get?_map, List.get?_cons_succ,
        List.get?_zipWith', hx, hy', Option.map_some', Option.bind_some]
      rfl

/-- C5 counterexample: for the series `[3, 4, 0, 5]` the code produces
`[NaN, 33.33, -100.0, +inf]` — the exact claimed formula would give
`100/3` at index 1 (the code rounds to 2 decimals) and null at index 3
(the code divides by the zero prior value and returns `+inf`). -/
theorem claim_C5_counterexample :
    yoyChangeSeries [PFloat.num 3, PFloat.num 4, PFloat.num 0, PFloat.num 5] =
      [PFloat.nan, PFloat.num (3333 / 100), PFloat.num (-100), PFloat.pinf] ∧
    yoyChangeClaimed [PFloat.num 3, PFloat.num 4, PFloat.num 0, PFloat.num 5] =
      [PFloat.nan, PFloat.num (100 / 3), PFloat.num (-100), PFloat.nan] ∧
    PFloat.num (3333 / 100) ≠ PFloat.num (100 / 3) ∧
    PFloat.pinf ≠ PFloat.nan := by
  refine ⟨?_, ?_, by norm_num, by decide⟩
  · norm_num [yoyChangeSeries, pctChange, num_div_num, num_sub_num, num_mul_num,
      round2_num, pyRound_eq, pinf_sub_num, pinf_mul_num, nan_mul, round2_nan, round2_pinf]
  · norm_num [yoyChangeClaimed, PFloat.isNan, num_div_num, num_sub_num, num_mul_num]

/-- C5 amended: the YoY column has the series length, is null at the first
period, and at later periods equals `round(((v[i] - v[i-1]) / v[i-1]) * 100, 2)`
(half-to-even rounding); it is null when the prior or the current value is
null, but a zero prior value yields NaN (zero current) or a signed infinity
rather than null; the example `[100, 150, 75] -> [null, 50.0, -50.0]` holds. -/
theorem claim_C5_amended :
    (∀ s : List PFloat, (yoyChangeSeries s).length = s.length) ∧
    (∀ (x : PFloat) (xs : List PFloat),
      (yoyChangeSeries (x :: xs)).head? = some PFloat.nan) ∧
    (∀ (s : List PFloat) (i : ℕ) (x y : PFloat),
      s.get? i = some x → s.get? (i + 1) = some y →
      ((yoyChangeSeries s).get? (i + 1) =
        some ((((y.div x).sub (PFloat.num 1)).mul (PFloat.num 100)).round2) ∧
      (x.isNan = true → (yoyChangeSeries s).get? (i + 1) = some PFloat.nan) ∧
      (y.isNan = true → (yoyChangeSeries s).get? (i + 1) = some PFloat.nan) ∧
      (∀ qx qy : ℚ, x = PFloat.num qx → y = PFloat.num qy → qx ≠ 0 →
        (yoyChangeSeries s).get? (i + 1) =
          some (PFloat.num ((pyRound ((qy - qx) / qx * 100 * 100) : ℚ) / 100))) ∧
      (∀ qy : ℚ, x = PFloat.num 0 → y = PFloat.num qy →
        (yoyChangeSeries s).get? (i + 1) =
          some (if qy = 0 then PFloat.nan
                else if 0 < qy then PFloat.pinf else PFloat.minf)))) ∧
    yoyChangeSeries [PFloat.num 100, PFloat.num 150, PFloat.num 75] =
      [PFloat.nan, PFloat.num 50, PFloat.num (-50)] := by
  refine ⟨?_, ?_, ?_, by
    norm_num [yoyChangeSeries, pctChange, num_div_num, num_sub_num, num_mul_num,
      round2_num, pyRound_eq, nan_mul, round2_nan]⟩
  · intro s
    cases s with
    | nil => rfl
    | cons a as => simp [yoyChangeSeries, pctChange]
  · intro x xs; rfl
  · intro s i x y hx hy
    refine ⟨yoy_get s i x y hx hy, ?_, ?_, ?_, ?_⟩
    · intro h
      have hx1 : x = PFloat.nan := by cases x <;> simp_all [PFloat.isNan]
      subst hx1
      rw [yoy_get s i _ y hx hy]
      cases y <;> rfl
    · intro h
      have hy1 : y = PFloat.nan := by cases y <;> simp_all [PFloat.isNan]
      subst hy1
      rw [yoy_get s i x _ hx hy]
      cases x <;> rfl
    · intro qx qy hqx hqy hne
      subst hqx; subst hqy
      rw [yoy_get s i _ _ hx hy]
      have hdiv : (PFloat.num qy).div (PFloat.num qx) = PFloat.num (qy / qx) := by
        simp [PFloat.div, hne]
      rw [hdiv]
      simp only [PFloat.sub, PFloat.neg, PFloat.add, PFloat.mul, PFloat.round2,
        Option.some.injEq, PFloat.num.injEq]
      congr 2
      field_simp
      ring_nf
    · intro qy hx0 hqy
      subst hx0; subst hqy
      rw [yoy_get s i _ _ hx hy]
      by_cases h0 : qy = 0
      · subst h0
        norm_num [PFloat.div, PFloat.sub, PFloat.neg, PFloat.add, PFloat.mul,
          PFloat.round2]
      · by_cases hpos : 0 < qy
        · simp [PFloat.div, h0, hpos, PFloat.sub, PFloat.neg, PFloat.add,
            PFloat.mul, PFloat.round2]
        · simp [PFloat.div, h0, hpos, PFloat.sub, PFloat.neg, PFloat.add,
            PFloat.mul, PFloat.round2]

/-- C5 witness: at `[100, 150]`, the change at index 1 is the rounded
formula value. -/
theorem claim_C5_amended_witness :
    ([PFloat.num 100, PFloat.num 150].get? 0 = some (PFloat.num 100)) ∧
    ([PFloat.num 100, PFloat.num 150].get? 1 = some (PFloat.num 150)) ∧
    (yoyChangeSeries [PFloat.num 100, PFloat.num 150]).get? 1 =
      some ((((PFloat.num 150).div (PFloat.num 100)).sub (PFloat.num 1)).mul
        (PFloat.num 100)).round2 :=
  ⟨rfl, rfl,
   (claim_C5_amended.2.2.1 [PFloat.num 100, PFloat.num 150] 0
     (PFloat.num 100) (PFloat.num 150) rfl rfl).1⟩

/-- C7 counterexample: with FCF `-0.01` and a present-but-NaN Revenue —
missing in the `pd.isna` sense — the claim's rule (missing Revenue treated
as `1`, so the bound is `-0.05` and `-0.01 > -0.05` scores 6) disagrees
with the code, which treats NaN as truthy, gets a NaN bound, and scores
2. -/
theorem claim_C7_counterexample :
    pyIsNA (some PFloat.nan) = true ∧
    fcfScoreClaimed (some (PFloat.num (-1 / 100))) (some PFloat.nan) = 6 ∧
    (fcfMetric (some (PFloat.num (-1 / 100))) (some PFloat.nan)).1 = 2 := by
  refine ⟨rfl, ?_, ?_⟩
  · norm_num [fcfScoreClaimed, pyIsNA, PFloat.isNan, PFloat.gtb, ltb_num_num,
      num_mul_num]
  · norm_num [fcfMetric, pyIsNA, PFloat.isNan, PFloat.gtb, ltb_nan_left,
      PFloat.truthy, num_mul_nan, ltb_num_num]

/-- C7 amended: missing FCF (`None` or NaN) scores 0 with a flag and
`FCF > 0` scores 10; for non-positive FCF the `-5%` bound uses Revenue
unless Revenue is `None` or zero (Python-falsy), both treated as `1`; a NaN
Revenue is truthy, makes the bound NaN, and any non-positive FCF then
scores 2 with a flag. -/
theorem claim_C7_amended :
    (∀ r, fcfMetric none r =
      (0, ["Free Cash Flow missing from Yahoo Finance for this ticker."])) ∧
    (∀ r, fcfMetric (some PFloat.nan) r =
      (0, ["Free Cash Flow missing from Yahoo Finance for this ticker."])) ∧
    (∀ q : ℚ, 0 < q → ∀ r, fcfMetric (some (PFloat.num q)) r = (10, [])) ∧
    (∀ q : ℚ, q ≤ 0 →
      fcfMetric (some (PFloat.num q)) none =
        fcfMetric (some (PFloat.num q)) (some (PFloat.num 0)) ∧
      fcfMetric (some (PFloat.num q)) none =
        (if -1 / 20 * 1 < q
         then (6, ["FCF slightly negative (may be investment-heavy period)."])
         else (2, ["FCF materially negative (funding needs can rise)."])) ∧
      fcfMetric (some (PFloat.num q)) (some PFloat.nan) =
        (2, ["FCF materially negative (funding needs can rise)."])) ∧
    (∀ q rq : ℚ, q ≤ 0 → rq ≠ 0 →
      fcfMetric (some (PFloat.num q)) (some (PFloat.num rq)) =
        (if -1 / 20 * rq < q
         then (6, ["FCF slightly negative (may be investment-heavy period)."])
         else (2, ["FCF materially negative (funding needs can rise)."]))) := by
  refine ⟨fun r => rfl, fun r => rfl, ?_, ?_, ?_⟩
  · intro q hq r
    simp [fcfMetric, pyIsNA, PFloat.isNan, PFloat.gtb, ltb_num_num, hq]
  · intro q hq
    have hq' : ¬ (0 : ℚ) < q := not_lt.mpr hq
    refine ⟨?_, ?_, ?_⟩
    · simp [fcfMetric, pyIsNA, PFloat.isNan, PFloat.truthy]
    · by_cases hb : (-1 : ℚ) / 20 * 1 < q <;>
        simp [fcfMetric, pyIsNA, PFloat.isNan, PFloat.gtb, ltb_num_num, hq', hb,
          PFloat.truthy, num_mul_num]
    · simp [fcfMetric, pyIsNA, PFloat.isNan, PFloat.gtb, ltb_num_num, hq',
        PFloat.truthy, num_mul_nan, ltb_nan_left]
  · intro q rq hq hrq
    have hq' : ¬ (0 : ℚ) < q := not_lt.mpr hq
    by_cases hb : (-1 : ℚ) / 20 * rq < q <;>
      simp [fcfMetric, pyIsNA, PFloat.isNan, PFloat.gtb, ltb_num_num, hq', hb,
        PFloat.truthy, num_mul_num, hrq]

/-- C7 witness: FCF `3` is positive and scores 10 with no flag. -/
theorem claim_C7_amended_witness :
    (0 : ℚ) < 3 ∧ fcfMetric (some (PFloat.num 3)) none = (10, []) :=
  ⟨by norm_num, claim_C7_amended.2.2.1 3 (by norm_num) none⟩

/-- C8 counterexample: a current ratio of `1.2` falls in the second band,
scores 7, and appends no flag — refuting "every threshold band below the
top band appends a descriptive flag"; and a NaN current ratio (NaN current
assets, a ratio that cannot be computed) scores 1 with the bottom-band
flag, not 0. -/
theorem claim_C8_counterexample :
    liquidityMetric (some (PFloat.num (6 / 5))) = (7, []) ∧
    safe_div (some PFloat.nan) (some (PFloat.num 100)) = some PFloat.nan ∧
    liquidityMetric (safe_div (some PFloat.nan) (some (PFloat.num 100))) =
      (1, ["Current Ratio is very low (high short-term liquidity risk)."]) := by
  refine ⟨?_, ?_, ?_⟩
  · norm_num [liquidityMetric, PFloat.geb, leb_num_num]
  · norm_num [safe_div, nan_div_any]
  · norm_num [safe_div, nan_div_any, liquidityMetric, PFloat.geb, leb_nan_right]

/-- C8 amended: in the six threshold metrics, the two lowest bands (scores
4 and 1) append a flag and the two highest (10 and 7) do not; a ratio that
is Python `None` (absent field, `None`/zero denominator) scores 0, with a
could-not-compute flag for Liquidity, Leverage, Profitability and Earnings
Quality and no flag for Solvency and Unit Economics; a NaN ratio
(present-but-NaN operand) instead falls through every band and scores 1
with the bottom-band flag. -/
theorem claim_C8_amended :
    (∀ r, ((liquidityMetric r).1 = 4 ∨ (liquidityMetric r).1 = 1 →
        (liquidityMetric r).2 ≠ []) ∧
      ((liquidityMetric r).1 = 10 ∨ (liquidityMetric r).1 = 7 →
        (liquidityMetric r).2 = [])) ∧
    (∀ r, ((leverageMetric r).1 = 4 ∨ (leverageMetric r).1 = 1 →
        (leverageMetric r).2 ≠ []) ∧
      ((leverageMetric r).1 = 10 ∨ (leverageMetric r).1 = 7 →
        (leverageMetric r).2 = [])) ∧
    (∀ r, ((solvencyMetric r).1 = 4 ∨ (solvencyMetric r).1 = 1 →
        (solvencyMetric r).2 ≠ []) ∧
      ((solvencyMetric r).1 = 10 ∨ (solvencyMetric r).1 = 7 →
        (solvencyMetric r).2 = [])) ∧
    (∀ r, ((profitabilityMetric r).1 = 4 ∨ (profitabilityMetric r).1 = 1 →
        (profitabilityMetric r).2 ≠ []) ∧
      ((profitabilityMetric r).1 = 10 ∨ (profitabilityMetric r).1 = 7 →
        (profitabilityMetric r).2 = [])) ∧
    (∀ r, ((unitEconomicsMetric r).1 = 4 ∨ (unitEconomicsMetric r).1 = 1 →
        (unitEconomicsMetric r).2 ≠ []) ∧
      ((unitEconomicsMetric r).1 = 10 ∨ (unitEconomicsMetric r).1 = 7 →
        (unitEconomicsMetric r).2 = [])) ∧
    (∀ r, ((earningsQualityMetric r).1 = 4 ∨ (earningsQualityMetric r).1 = 1 →
        (earningsQualityMetric r).2 ≠ []) ∧
      ((earningsQualityMetric r).1 = 10 ∨ (earningsQualityMetric r).1 = 7 →
        (earningsQualityMetric r).2 = [])) ∧
    liquidityMetric none =
      (0, ["Could not compute Current Ratio (missing current assets/liabilities)."]) ∧
    leverageMetric none =
      (0, ["Could not compute leverage ratio (missing liabilities/equity)."]) ∧
    solvencyMetric none = (0, []) ∧
    profitabilityMetric none =
      (0, ["Could not compute operating margin (missing EBIT/revenue)."]) ∧
    unitEconomicsMetric none = (0, []) ∧
    earningsQualityMetric none =
      (0, ["Could not compute OCF/Net Income (missing OCF or Net Income)."]) ∧
    liquidityMetric (some PFloat.nan) =
      (1, ["Current Ratio is very low (high short-term liquidity risk)."]) ∧
    leverageMetric (some PFloat.nan) =
      (1, ["Very high leverage (risk increases sharply in downturns)."]) ∧
    solvencyMetric (some PFloat.nan) =
      (1, ["Liabilities dominate the asset base (solvency risk)."]) ∧
    profitabilityMetric (some PFloat.nan) =
      (1, ["Very low operating margin (business model looks fragile)."]) ∧
    unitEconomicsMetric (some PFloat.nan) =
      (1, ["Very low gross margin (watch competitive pressure)."]) ∧
    earningsQualityMetric (some PFloat.nan) =
      (1, ["Very weak cash conversion (potential accrual risk)."]) := by
  refine ⟨?_, ?_, ?_, ?_, ?_, ?_,
    rfl, rfl, rfl, rfl, rfl, rfl, rfl, rfl, rfl, rfl, rfl, rfl⟩ <;>
  · intro r
    rcases r with _ | v
    · exact ⟨by decide, by decide⟩
    · simp only [liquidityMetric, leverageMetric, solvencyMetric,
        profitabilityMetric, unitEconomicsMetric, earningsQualityMetric]
      split_ifs <;> exact ⟨by decide, by decide⟩

/-- C8 witness: a current ratio of `0.9` lands in the score-4 band, and
the flag list is then nonempty. -/
theorem claim_C8_amended_witness :
    ((liquidityMetric (some (PFloat.num (9 / 10)))).1 = 4 ∨
      (liquidityMetric (some (PFloat.num (9 / 10)))).1 = 1) ∧
    (liquidityMetric (some (PFloat.num (9 / 10)))).2 ≠ [] :=
  ⟨Or.inl (by norm_num [liquidityMetric, PFloat.geb, leb_num_num]),
   (claim_C8_amended.1 (some (PFloat.num (9 / 10)))).1
     (Or.inl (by norm_num [liquidityMetric, PFloat.geb, leb_num_num]))⟩

theorem rankLe_total (a b : PFloat) : rankLe a b ∨ rankLe b a := by
  unfold rankLe
  rcases lt_trichotomy (rankClass a) (rankClass b) with h | h | h
  · exact Or.inl (Or.inl h)
  · rcases le_total (rankVal a) (rankVal b) with hv | hv
    · exact Or.inl (Or.inr ⟨h, hv⟩)
    · exact Or.inr (Or.inr ⟨h.symm, hv⟩)
  · exact Or.inr (Or.inl h)

theorem rankLe_trans (a b c : PFloat) (h1 : rankLe a b) (h2 : rankLe b c) :
    rankLe a c := by
  unfold rankLe at h1 h2 ⊢
  rcases h1 with h1 | ⟨h1, h1v⟩ <;> rcases h2 with h2 | ⟨h2, h2v⟩
  · exact Or.inl (lt_trans h1 h2)
  · exact Or.inl (lt_of_lt_of_le h1 (le_of_eq h2))
  · exact Or.inl (lt_of_le_of_lt (le_of_eq h1) h2)
  · exact Or.inr ⟨h1.trans h2, h1v.trans h2v⟩

instance : IsTotal (String × PFloat) (fun x y => rankLe x.2 y.2) :=
  ⟨fun a b => rankLe_total a.2 b.2⟩

instance : IsTrans (String × PFloat) (fun x y => rankLe x.2 y.2) :=
  ⟨fun a b c => rankLe_trans a.2 b.2 c.2⟩

/-- C6 counterexample: on `wRowsC6` the code's window cutoff is the max
date minus a 2-year date offset (2021-12-31), which drops A's 2021-06-30
row, so the code ranks `[B, A]`; filtering by calendar year
(`year >= max_year - 2`) as the claim states keeps that row and ranks
`[A, B]`. -/
theorem claim_C6_counterexample :
    get_RankingTableProfitability wRowsC6 =
      [("B", PFloat.num 5), ("A", PFloat.num 1)] ∧
    rankingByCalendarYearClaimed wRowsC6 =
      [("A", PFloat.num (101 / 2)), ("B", PFloat.num 5)] ∧
    get_RankingTableProfitability wRowsC6 ≠ rankingByCalendarYearClaimed wRowsC6 := by
  refine ⟨?_, ?_, ?_⟩
  · norm_num +decide [get_RankingTableProfitability, sortTRows, windowRows,
      maxDate, minusTwoYears, Date.leb, isLeapYear, groupMeans, companiesOf,
      pmean, sortValuesDesc, rankLe, rankClass, rankVal, List.insertionSort,
      List.orderedInsert, List.dedup, PFloat.isNan, num_add_num, num_div_num]
  · norm_num +decide [rankingByCalendarYearClaimed, sortTRows, maxYear,
      Date.leb, groupMeans, companiesOf, pmean, sortValuesDesc, rankLe,
      rankClass, rankVal, List.insertionSort, List.orderedInsert, List.dedup,
      PFloat.isNan, num_add_num, num_div_num]
  · intro h
    have h1 : get_RankingTableProfitability wRowsC6 =
        [("B", PFloat.num 5), ("A", PFloat.num 1)] := by
      norm_num +decide [get_RankingTableProfitability, sortTRows, windowRows,
        maxDate, minusTwoYears, Date.leb, isLeapYear, groupMeans, companiesOf,
        pmean, sortValuesDesc, rankLe, rankClass, rankVal, List.insertionSort,
        List.orderedInsert, List.dedup, PFloat.isNan, num_add_num, num_div_num]
    have h2 : rankingByCalendarYearClaimed wRowsC6 =
        [("A", PFloat.num (101 / 2)), ("B", PFloat.num 5)] := by
      norm_num +decide [rankingByCalendarYearClaimed, sortTRows, maxYear,
        Date.leb, groupMeans, companiesOf, pmean, sortValuesDesc, rankLe,
        rankClass, rankVal, List.insertionSort, List.orderedInsert, List.dedup,
        PFloat.isNan, num_add_num, num_div_num]
    rw [h1, h2] at h
    simp at h

/-- C6 amended: the ranking restricts the (index-sorted) table to rows
whose period is on or after `index.max() - DateOffset(years=2)` — a
date-offset cutoff, not the calendar-year comparison
`period.year >= max(period.year) - 2` — then groups by company, takes the
mean over that window, and sorts descending so the best-performing company
comes first (the output is a descending-sorted permutation of the
per-company window means); with single-period means `{A: 5, B: -2, C: 10}`
the ranking order is `[C, A, B]`. -/
theorem claim_C6_amended :
    (∀ (rows : List TRow) (r : TRow),
      r ∈ windowRows rows ↔
        r ∈ rows ∧ Date.leb (minusTwoYears (maxDate rows)) r.date = true) ∧
    (∀ rows : List TRow,
      List.Sorted (fun x y : String × PFloat => rankLe x.2 y.2)
        (get_RankingTableProfitability rows)) ∧
    (∀ rows : List TRow,
      (get_RankingTableProfitability rows).Perm
        (groupMeans (windowRows (sortTRows rows)))) ∧
    get_RankingTableProfitability wRowsC6ex =
      [("C", PFloat.num 10), ("A", PFloat.num 5), ("B", PFloat.num (-2))] := by
  refine ⟨?_, ?_, ?_, ?_⟩
  · intro rows r
    simp [windowRows, List.mem_filter]
  · intro rows
    exact List.sorted_insertionSort (fun x y : String × PFloat => rankLe x.2 y.2) _
  · intro rows
    exact List.perm_insertionSort (fun x y : String × PFloat => rankLe x.2 y.2) _
  · norm_num +decide [get_RankingTableProfitability, sortTRows, windowRows,
      maxDate, minusTwoYears, Date.leb, isLeapYear, groupMeans, companiesOf,
      pmean, sortValuesDesc, rankLe, rankClass, rankVal, List.insertionSort,
      List.orderedInsert, List.dedup, PFloat.isNan, num_add_num, num_div_num]

/-- C4 (code bug): in the batch ratio computation, ticker `"B"` — whose
income statement is entirely unavailable (empty frame) — makes
`get_TotalRevenue` raise `KeyError: Total Revenue`, aborting the whole
batch, including the results of the healthy ticker `"A"`; ticker `"A"`
alone would have produced its rows. -/
theorem claim_C4_batch_abort :
    get_RatiosofMultipleCompanies wProviderC4 ["A", "B"] =
      .error "KeyError: Total Revenue" ∧
    ∃ out, get_RatiosofMultipleCompanies wProviderC4 ["A"] = .ok out ∧
      out.1.length = 1 :=
  ⟨rfl, ⟨_, rfl, rfl⟩⟩

theorem pyRound_bounds (q : ℚ) (h0 : 0 ≤ q) (h1 : q ≤ 100) :
    0 ≤ pyRound q ∧ pyRound q ≤ 100 := by
  have hfl : (⌊q⌋ : ℚ) ≤ q := Int.floor_le q
  have hf0 : 0 ≤ ⌊q⌋ := Int.floor_nonneg.mpr h0
  have hf100 : ⌊q⌋ ≤ 100 := by
    have h := Int.floor_le_floor h1
    simpa using h
  rw [pyRound_eq]
  split_ifs with c1 c2 c3
  · exact ⟨hf0, hf100⟩
  · refine ⟨by omega, ?_⟩
    have hlt : (⌊q⌋ : ℚ) < 100 := by linarith
    have : ⌊q⌋ < 100 := by exact_mod_cast hlt
    omega
  · exact ⟨hf0, hf100⟩
  · refine ⟨by omega, ?_⟩
    have hr : q - ⌊q⌋ = 1 / 2 := le_antisymm (not_lt.mp c2) (not_lt.mp c1)
    have hlt : (⌊q⌋ : ℚ) < 100 := by linarith
    have : ⌊q⌋ < 100 := by exact_mod_cast hlt
    omega

theorem liquidityMetric_bounds (r : Option PFloat) :
    0 ≤ (liquidityMetric r).1 ∧ (liquidityMetric r).1 ≤ 10 := by
  rcases r with _ | v
  · exact ⟨by decide, by decide⟩
  · simp only [liquidityMetric]
    split_ifs <;> exact ⟨by norm_num, by norm_num⟩

theorem leverageMetric_bounds (r : Option PFloat) :
    0 ≤ (leverageMetric r).1 ∧ (leverageMetric r).1 ≤ 10 := by
  rcases r with _ | v
  · exact ⟨by decide, by decide⟩
  · simp only [leverageMetric]
    split_ifs <;> exact ⟨by norm_num, by norm_num⟩

theorem solvencyMetric_bounds (r : Option PFloat) :
    0 ≤ (solvencyMetric r).1 ∧ (solvencyMetric r).1 ≤ 10 := by
  rcases r with _ | v
  · exact ⟨by decide, by decide⟩
  · simp only [solvencyMetric]
    split_ifs <;> exact ⟨by norm_num, by norm_num⟩

theorem profitabilityMetric_bounds (r : Option PFloat) :
    0 ≤ (profitabilityMetric r).1 ∧ (profitabilityMetric r).1 ≤ 10 := by
  rcases r with _ | v
  · exact ⟨by decide, by decide⟩
  · simp only [profitabilityMetric]
    split_ifs <;> exact ⟨by norm_num, by norm_num⟩

theorem unitEconomicsMetric_bounds (r : Option PFloat) :
    0 ≤ (unitEconomicsMetric r).1 ∧ (unitEconomicsMetric r).1 ≤ 10 := by
  rcases r with _ | v
  · exact ⟨by decide, by decide⟩
  · simp only [unitEconomicsMetric]
    split_ifs <;> exact ⟨by norm_num, by norm_num⟩

theorem earningsQualityMetric_bounds (r : Option PFloat) :
    0 ≤ (earningsQualityMetric r).1 ∧ (earningsQualityMetric r).1 ≤ 10 := by
  rcases r with _ | v
  · exact ⟨by decide, by decide⟩
  · simp only [earningsQualityMetric]
    split_ifs <;> exact ⟨by norm_num, by norm_num⟩

theorem fcfMetric_bounds (f r : Option PFloat) :
    0 ≤ (fcfMetric f r).1 ∧ (fcfMetric f r).1 ≤ 10 := by
  rcases f with _ | fv
  · exact ⟨le_refl 0, show (0 : ℤ) ≤ 10 by norm_num⟩
  · simp only [fcfMetric]
    split_ifs <;> exact ⟨by norm_num, by norm_num⟩

set_option maxHeartbeats 1000000 in
theorem trendChecks_bounds (a b c d e : Option PFloat) :
    0 ≤ (trendChecks a b c d e).1 ∧ (trendChecks a b c d e).1 ≤ 10 := by
  simp only [trendChecks]
  refine ⟨le_max_right _ 0, max_le ?_ (by norm_num)⟩
  split_ifs <;> norm_num

theorem scoreBound (a1 a2 a3 a4 a5 a6 a7 a8 : ℤ)
    (h1a : 0 ≤ a1) (h1b : a1 ≤ 10) (h2a : 0 ≤ a2) (h2b : a2 ≤ 10)
    (h3a : 0 ≤ a3) (h3b : a3 ≤ 10) (h4a : 0 ≤ a4) (h4b : a4 ≤ 10)
    (h5a : 0 ≤ a5) (h5b : a5 ≤ 10) (h6a : 0 ≤ a6) (h6b : a6 ≤ 10)
    (h7a : 0 ≤ a7) (h7b : a7 ≤ 10) (h8a : 0 ≤ a8) (h8b : a8 ≤ 10) :
    0 ≤ pyRound (((a1 : ℚ) + ((a2 : ℚ) + ((a3 : ℚ) + ((a4 : ℚ) + ((a5 : ℚ) +
        ((a6 : ℚ) + ((a7 : ℚ) + (a8 : ℚ)))))))) / 80 * 100) ∧
    pyRound (((a1 : ℚ) + ((a2 : ℚ) + ((a3 : ℚ) + ((a4 : ℚ) + ((a5 : ℚ) +
        ((a6 : ℚ) + ((a7 : ℚ) + (a8 : ℚ)))))))) / 80 * 100) ≤ 100 := by
  have c1a : (0 : ℚ) ≤ (a1 : ℚ) := by exact_mod_cast h1a
  have c1b : (a1 : ℚ) ≤ 10 := by exact_mod_cast h1b
  have c2a : (0 : ℚ) ≤ (a2 : ℚ) := by exact_mod_cast h2a
  have c2b : (a2 : ℚ) ≤ 10 := by exact_mod_cast h2b
  have c3a : (0 : ℚ) ≤ (a3 : ℚ) := by exact_mod_cast h3a
  have c3b : (a3 : ℚ) ≤ 10 := by exact_mod_cast h3b
  have c4a : (0 : ℚ) ≤ (a4 : ℚ) := by exact_mod_cast h4a
  have c4b : (a4 : ℚ) ≤ 10 := by exact_mod_cast h4b
  have c5a : (0 : ℚ) ≤ (a5 : ℚ) := by exact_mod_cast h5a
  have c5b : (a5 : ℚ) ≤ 10 := by exact_mod_cast h5b
  have c6a : (0 : ℚ) ≤ (a6 : ℚ) := by exact_mod_cast h6a
  have c6b : (a6 : ℚ) ≤ 10 := by exact_mod_cast h6b
  have c7a : (0 : ℚ) ≤ (a7 : ℚ) := by exact_mod_cast h7a
  have c7b : (a7 : ℚ) ≤ 10 := by exact_mod_cast h7b
  have c8a : (0 : ℚ) ≤ (a8 : ℚ) := by exact_mod_cast h8a
  have c8b : (a8 : ℚ) ≤ 10 := by exact_mod_cast h8b
  refine ⟨(pyRound_bounds _ ?_ ?_).1, (pyRound_bounds _ ?_ ?_).2⟩ <;> linarith

theorem healthMain_invariants
    (ca cl ta tl eqv ch rv eb gp ni oc fc cx : Option PFloat)
    (s1 s2 s3 s4 s5 : List PFloat) :
    0 ≤ (healthMain ca cl ta tl eqv ch rv eb gp ni oc fc cx s1 s2 s3 s4 s5).score ∧
    (healthMain ca cl ta tl eqv ch rv eb gp ni oc fc cx s1 s2 s3 s4 s5).score ≤ 100 ∧
    (healthMain ca cl ta tl eqv ch rv eb gp ni oc fc cx s1 s2 s3 s4 s5).rating ∈
      (["Strong", "Okay", "Weak", "Risky", "No Data"] : List String) ∧
    ∀ p ∈ (healthMain ca cl ta tl eqv ch rv eb gp ni oc fc cx s1 s2 s3 s4 s5).metric_scores,
      0 ≤ p.2 ∧ p.2 ≤ 10 := by
  obtain ⟨h1a, h1b⟩ := liquidityMetric_bounds (safe_div ca cl)
  obtain ⟨h2a, h2b⟩ := leverageMetric_bounds (safe_div tl eqv)
  obtain ⟨h3a, h3b⟩ := solvencyMetric_bounds (safe_div tl ta)
  obtain ⟨h4a, h4b⟩ := profitabilityMetric_bounds (safe_div eb rv)
  obtain ⟨h5a, h5b⟩ := unitEconomicsMetric_bounds (safe_div gp rv)
  obtain ⟨h6a, h6b⟩ := earningsQualityMetric_bounds (safe_div oc ni)
  obtain ⟨h7a, h7b⟩ := fcfMetric_bounds fc rv
  obtain ⟨h8a, h8b⟩ := trendChecks_bounds (trendPct s1) (trendPct s2) (trendPct s3)
    (trendPct s4) (trendPct s5)
  refine ⟨?_, ?_, ?_, ?_⟩
  · simp only [healthMain, List.isEmpty_cons, List.map_cons, List.map_nil,
      List.sum_cons, List.sum_nil, List.length_cons, List.length_nil]
    norm_num
    exact (scoreBound _ _ _ _ _ _ _ _ h1a h1b h2a h2b h3a h3b h4a h4b h5a h5b
      h6a h6b h7a h7b h8a h8b).1
  · simp only [healthMain, List.isEmpty_cons, List.map_cons, List.map_nil,
      List.sum_cons, List.sum_nil, List.length_cons, List.length_nil]
    norm_num
    exact (scoreBound _ _ _ _ _ _ _ _ h1a h1b h2a h2b h3a h3b h4a h4b h5a h5b
      h6a h6b h7a h7b h8a h8b).2
  · simp only [healthMain]
    split_ifs <;> simp
  · simp only [healthMain]
    intro p hp
    simp only [List.mem_cons, List.not_mem_nil, or_false] at hp
    rcases hp with rfl | rfl | rfl | rfl | rfl | rfl | rfl | rfl
    · exact ⟨h1a, h1b⟩
    · exact ⟨h2a, h2b⟩
    · exact ⟨h3a, h3b⟩
    · exact ⟨h4a, h4b⟩
    · exact ⟨h5a, h5b⟩
    · exact ⟨h6a, h6b⟩
    · exact ⟨h7a, h7b⟩
    · exact ⟨h8a, h8b⟩

/-- C9: every result the health scorer returns satisfies the
`HealthAssessment` invariants — score in `[0, 100]`, rating one of Strong /
Okay / Weak / Risky / No Data, every metric score in `[0, 10]` (the Trend
Checks metric in particular is floored at 0). -/
theorem claim_C9_result_invariants (t : String) (bs fs cf : Option DFrame)
    (res : HealthResult) (h : scoreCompanyHealth t bs fs cf = .ok res) :
    0 ≤ res.score ∧ res.score ≤ 100 ∧
    res.rating ∈ (["Strong", "Okay", "Weak", "Risky", "No Data"] : List String) ∧
    ∀ p ∈ res.metric_scores, 0 ≤ p.2 ∧ p.2 ≤ 10 := by
  simp only [scoreCompanyHealth] at h
  split at h
  · rw [Except.ok.injEq] at h
    subst h
    exact ⟨by norm_num [noDataResult], by norm_num [noDataResult],
      by simp [noDataResult], by simp [noDataResult]⟩
  · split at h
    · split at h
      · rw [Except.ok.injEq] at h
        subst h
        exact healthMain_invariants _ _ _ _ _ _ _ _ _ _ _ _ _ _ _ _ _ _
      · simp at h
    · simp at h

/-- C9 witness: with all three statements absent the scorer returns the
No-Data record, which satisfies every invariant. -/
theorem claim_C9_result_invariants_witness :
    scoreCompanyHealth "X" none none none = .ok noDataResult ∧
    (0 ≤ noDataResult.score ∧ noDataResult.score ≤ 100 ∧
      noDataResult.rating ∈ (["Strong", "Okay", "Weak", "Risky", "No Data"] : List String) ∧
      ∀ p ∈ noDataResult.metric_scores, 0 ≤ p.2 ∧ p.2 ≤ 10) :=
  ⟨rfl, claim_C9_result_invariants "X" none none none noDataResult rfl⟩

end FinHealth
